import Mathlib

/-
  Shallow embedding of the booking-attribution and recent-activity
  aggregation core of the hn-staff repository:
  * source attribution (src/models/booking.py, attribute_booking;
    src/ui/recent_bookings.py, _determine_booking_source)
  * booking summarization (src/ui/recent_bookings.py, parse_booking_summary)
  * created-date window filter (src/ui/recent_bookings.py,
    _filter_created_last_n_days) and composite-key deduplication
    (src/ui/recent_bookings.py, display_recent_bookings_section)
  * client-side rate limiter (src/services/api_list_recent_bookings.py,
    _smart_rate_limit)
  Machine times are modelled as exact rationals, dates as integer day
  numbers and timestamps as integer minutes since an arbitrary epoch.
-/

set_option maxRecDepth 4000

namespace HnStaff

/- ### String helpers mirroring the Python string operations used -/

/-- Python: `needle.isPrefix of hay` helper; char-list version of startswith. -/
def starts_with_chars : List Char → List Char → Bool
  | [], _ => true
  | _ :: _, [] => false
  | a :: as, b :: bs => a == b && starts_with_chars as bs

/-- Python: `needle in hay` substring containment, on char lists. -/
def has_sub_chars (needle : List Char) : List Char → Bool
  | [] => needle.isEmpty
  | c :: rest => starts_with_chars needle (c :: rest) || has_sub_chars needle rest

/-- Python: `needle in hay` on strings. -/
def str_has_sub (hay needle : String) : Bool :=
  has_sub_chars needle.data hay.data

/-- Python: `s.lower()` (ASCII lowering, as used on the id and channel strings). -/
def lower_str (s : String) : String :=
  String.mk (s.data.map Char.toLower)

/-- Python: `s[0] == c` on a possibly empty string (False when empty). -/
def first_char_is (s : String) (c : Char) : Bool :=
  s.data.head? == some c

/-- Python: `s[:2] == t` comparison of the two leading characters. -/
def first_two_are (s : String) (c1 c2 : Char) : Bool :=
  s.data.take 2 == [c1, c2]

/- ### Source attribution rules (conditions exactly as in the source) -/

/-- Fixed staff-code set from both attribution variants. -/
def staff_codes : List String :=
  ["d", "ryo", "as", "j", "jj", "ash", "t", "tom", "p", "li"]

/-- Airbnb rule of models/booking.py attribute_booking: H prefix, length 10,
nonempty channel string containing the channel-manager marker. -/
def attr_airbnb_rule (custom_id booking_source : String) : Bool :=
  first_char_is custom_id 'H' && custom_id.length == 10 &&
    !(booking_source == "") &&
    str_has_sub (lower_str booking_source) "roomboss channel manager"

/-- Airbnb rule of ui/recent_bookings.py _determine_booking_source (no
truthiness guard on the channel string). -/
def rb_airbnb_rule (custom_id booking_source : String) : Bool :=
  first_char_is custom_id 'H' && custom_id.length == 10 &&
    str_has_sub (lower_str booking_source) "roomboss channel manager"

/-- Booking.com rule of models/booking.py: length 10, first char not H. -/
def bcom_rule (custom_id : String) : Bool :=
  custom_id.length == 10 && !(first_char_is custom_id 'H')

/-- Booking.com rule of ui/recent_bookings.py: additionally matches when the
channel string contains "booking.com". -/
def rb_bcom_rule (custom_id booking_source : String) : Bool :=
  (custom_id.length == 10 && !(first_char_is custom_id 'H')) ||
    str_has_sub (lower_str booking_source) "booking.com"

/-- Expedia rule (shared shape in both variants). -/
def expedia_rule (custom_id : String) : Bool :=
  (custom_id.length == 8 && first_char_is custom_id '4') ||
  (custom_id.length == 9 && first_char_is custom_id '3') ||
  (custom_id.length == 8 && first_char_is custom_id '7') ||
  (custom_id.length == 9 && first_char_is custom_id '2')

/-- Jalan rule (shared shape in both variants). -/
def jalan_rule (custom_id : String) : Bool :=
  (custom_id.length == 8 && first_char_is custom_id '0') ||
  first_two_are custom_id '6' 'X' || first_two_are custom_id '6' 'J'

/-- Staff rule: lower-cased id belongs to the fixed staff-code set. -/
def staff_rule (custom_id : String) : Bool :=
  staff_codes.contains (lower_str custom_id)

/-- The rule chain of models/booking.py attribute_booking before the final
OTA fix-up: defaults to (Unknown, Unknown), first match wins on a nonempty
custom id, an empty custom id gives (Book & Pay, Book & Pay). -/
def attr_pre (custom_id booking_source : String) : String × String :=
  if custom_id == "" then ("Book & Pay", "Book & Pay")
  else if attr_airbnb_rule custom_id booking_source then ("Unknown", "Airbnb")
  else if bcom_rule custom_id then ("Unknown", "Booking.com")
  else if expedia_rule custom_id then ("Unknown", "Expedia")
  else if jalan_rule custom_id then ("Unknown", "Jalan")
  else if staff_rule custom_id then ("HN Staff", custom_id)
  else ("Unknown", "Unknown")

/-- The final step of attribute_booking: the primary channel is forced to OTA
whenever the secondary channel is one of the four OTAs. -/
def ota_fixup (p : String × String) : String × String :=
  if p.2 == "Airbnb" || p.2 == "Booking.com" || p.2 == "Expedia" || p.2 == "Jalan"
    then ("OTA", p.2) else p

/-- models/booking.py attribute_booking: the rule chain followed by the OTA
fix-up. -/
def attribute_booking (custom_id booking_source : String) : String × String :=
  ota_fixup (attr_pre custom_id booking_source)

/-- ui/recent_bookings.py _determine_booking_source: single-string variant;
empty custom id and the no-match fallthrough both give Book & Pay. -/
def determine_booking_source (custom_id booking_source : String) : String :=
  if custom_id == "" then "Book & Pay"
  else if rb_airbnb_rule custom_id booking_source then "Airbnb"
  else if rb_bcom_rule custom_id booking_source then "Booking.com"
  else if expedia_rule custom_id then "Expedia"
  else if jalan_rule custom_id then "Jalan"
  else if staff_rule custom_id then "Staff (" ++ custom_id ++ ")"
  else "Book & Pay"

/- ### Data model for raw bookings and summaries -/

/-- A date-valued field of the raw JSON: absent or empty string, a nonempty
string that fails date parsing, or a parsed calendar date as an integer day
number. -/
inductive DateField where
  | empty : DateField
  | invalid : String → DateField
  | valid : ℤ → DateField
deriving DecidableEq

/-- A timestamp-valued field of the raw JSON (createdDate): absent or empty,
unparseable, or a parsed UTC timestamp in integer minutes since an epoch. -/
inductive TimeField where
  | empty : TimeField
  | invalid : String → TimeField
  | valid : ℤ → TimeField
deriving DecidableEq

/-- One line item of a raw reservation (fields read by the summarizer). -/
structure RawItem where
  priceSell : Option ℤ
  priceRetail : Option ℤ
  checkIn : DateField
  checkOut : DateField
  startDate : DateField
  endDate : DateField
  numberGuests : ℤ
deriving DecidableEq

/-- One invoice/payment record of a raw reservation. -/
structure InvoicePayment where
  invoiceAmount : Option ℤ
  paymentAmount : Option ℤ
deriving DecidableEq

/-- The fields of a raw reservation payload consumed by the summarizer
(flat structure; the nested variant only repackages the same fields). -/
structure RawBooking where
  bookingId : String
  eId : String
  bookingType : String
  customId : String
  bookingSource : String
  active : Option Bool
  createdDate : TimeField
  items : List RawItem
  invoicePayments : List InvoicePayment
deriving DecidableEq

/-- The summary record produced by parse_booking_summary, restricted to the
fields the verified pipeline reads (ids, money totals, nights, status, source,
the composite key and the raw created date used by the window filter). -/
structure BookingSummary where
  booking_id : String
  e_id : String
  composite_key : String
  nights : ℤ
  guests : ℤ
  sell_price_raw : ℤ
  amount_invoiced_raw : ℤ
  amount_received_raw : ℤ
  is_active : Bool
  status : String
  booking_type : String
  booking_source : String
  raw_created : TimeField
deriving DecidableEq

/- ### Booking summarizer (ui/recent_bookings.py parse_booking_summary) -/

/-- The nights computation of parse_booking_summary. ACCOMMODATION: nights is
the whole-day difference checkOut minus checkIn when both fields are nonempty
and parse; a missing field leaves the initial 0 and a parse failure resets to
0. SERVICE: nights is endDate minus startDate with a zero difference forced to
1; a missing field or a parse failure gives 1. With no items nights stays 0. -/
def nights_of (bookingType : String) (items : List RawItem) : ℤ :=
  match items with
  | [] => 0
  | first :: _ =>
    if bookingType == "ACCOMMODATION" then
      match first.checkIn, first.checkOut with
      | DateField.valid d1, DateField.valid d2 => d2 - d1
      | _, _ => 0
    else if bookingType == "SERVICE" then
      match first.startDate, first.endDate with
      | DateField.valid s, DateField.valid e =>
        if e - s == 0 then 1 else e - s
      | _, _ => 1
    else 0

/-- The guest count of parse_booking_summary: numberGuests of the first item,
read only for ACCOMMODATION bookings; otherwise the initial 0. -/
def guests_of (bookingType : String) (items : List RawItem) : ℤ :=
  match items with
  | [] => 0
  | first :: _ => if bookingType == "ACCOMMODATION" then first.numberGuests else 0

/-- ui/recent_bookings.py parse_booking_summary restricted to the verified
fields. Sell price accumulates priceSell with default 0 over all items; the
invoice loop accumulates invoiceAmount and paymentAmount with default 0; the
status is Active when the active flag (default true) is set, else Cancelled;
the composite key is the external id and the booking id joined by an
underscore. -/
def parse_booking_summary (b : RawBooking) : BookingSummary :=
  let total_invoiced :=
    b.invoicePayments.foldl (fun acc ip => acc + ip.invoiceAmount.getD 0) 0
  let total_received :=
    b.invoicePayments.foldl (fun acc ip => acc + ip.paymentAmount.getD 0) 0
  let sell_price := b.items.foldl (fun acc it => acc + it.priceSell.getD 0) 0
  let src := determine_booking_source b.customId b.bookingSource
  let is_active := b.active.getD true
  { booking_id := b.bookingId
    e_id := b.eId
    composite_key := b.eId ++ "_" ++ b.bookingId
    nights := nights_of b.bookingType b.items
    guests := guests_of b.bookingType b.items
    sell_price_raw := sell_price
    amount_invoiced_raw := total_invoiced
    amount_received_raw := total_received
    is_active := is_active
    status := if is_active then "Active" else "Cancelled"
    booking_type := b.bookingType
    booking_source := src
    raw_created := b.createdDate }

/-- Modelled from the spec wording only, for comparison with the source: the
total sell price as the sum of priceSell with fallback to priceRetail when
priceSell is absent. -/
def spec_sell_total (b : RawBooking) : ℤ :=
  (b.items.map (fun it =>
    match it.priceSell with
    | some v => v
    | none => it.priceRetail.getD 0)).sum

/- ### Window filter (ui/recent_bookings.py _filter_created_last_n_days) -/

/-- Conversion of a timestamp in minutes to its calendar day number by floor
division (a day has 1440 minutes). -/
def date_of_minutes (m : ℤ) : ℤ := m.fdiv 1440

/-- The fixed UTC to JST offset of nine hours, in minutes. -/
def jst_offset_min : ℤ := 540

/-- Decision of _filter_created_last_n_days for one summary: the created
timestamp must be present and parseable, and its JST calendar date must be at
or after the cutoff date, the JST date of the reference time minus
(days - 1) days. Absent or unparseable created dates are skipped. -/
def created_in_window (now_utc_min : ℤ) (days : ℤ) (b : BookingSummary) : Bool :=
  match b.raw_created with
  | TimeField.valid m =>
    let now_jst := now_utc_min + jst_offset_min
    let cutoff_date_jst := date_of_minutes (now_jst - 1440 * (days - 1))
    decide (cutoff_date_jst ≤ date_of_minutes (m + jst_offset_min))
  | _ => false

/-- ui/recent_bookings.py _filter_created_last_n_days as a list filter. -/
def filter_created_last_n_days (now_utc_min : ℤ) (days : ℤ)
    (parsed_bookings : List BookingSummary) : List BookingSummary :=
  parsed_bookings.filter (created_in_window now_utc_min days)

/- ### Deduplication (ui/recent_bookings.py display_recent_bookings_section) -/

/-- The key used by the dedup loop: the stored composite_key, recomputed from
the external id and booking id joined by an underscore when the stored key is
empty. -/
def eff_key (b : BookingSummary) : String :=
  if b.composite_key == "" then b.e_id ++ "_" ++ b.booking_id else b.composite_key

/-- The dedup loop: keep a record when its key is nonempty and unseen, also
keep it when the key is empty (the retain-malformed branch), otherwise drop
it as a duplicate. -/
def dedupe_go (seen : List String) : List BookingSummary → List BookingSummary
  | [] => []
  | b :: bs =>
    let ck := eff_key b
    if ck ≠ "" ∧ ck ∉ seen then b :: dedupe_go (ck :: seen) bs
    else if ck = "" then b :: dedupe_go seen bs
    else dedupe_go seen bs

/-- Deduplication of a summary list starting from an empty seen set. -/
def dedupe_bookings (bs : List BookingSummary) : List BookingSummary :=
  dedupe_go [] bs

/-- The spec contract filterAndDedupe: window filter then deduplication, as
composed by display_recent_bookings_section. -/
def filter_and_dedupe (now_utc_min : ℤ) (days : ℤ)
    (bs : List BookingSummary) : List BookingSummary :=
  dedupe_bookings (filter_created_last_n_days now_utc_min days bs)

/- ### Rate limiter (services/api_list_recent_bookings.py) -/

/-- Module constant: documented per-minute limit of the platform. -/
def max_calls_per_minute : ℕ := 60

/-- Module constant: soft threshold where graduated delays start. -/
def rate_limit_threshold : ℕ := 40

/-- Module constant: safety margin below the documented limit. -/
def safety_buffer : ℕ := 10

/-- Module constant: hard ceiling, limit minus safety margin (50). -/
def hard_limit : ℕ := max_calls_per_minute - safety_buffer

/-- Rate limiter state: the current wall-clock time and the shared list of
recorded call timestamps, both in seconds as exact rationals. -/
structure RLState where
  now : ℚ
  times : List ℚ
deriving DecidableEq

/-- Pruning step: keep only timestamps strictly younger than 60 seconds. -/
def prune_times (now : ℚ) (ts : List ℚ) : List ℚ :=
  ts.filter (fun t => decide (now - t < 60))

/-- The graduated soft delay of _smart_rate_limit as a function of the call
count after the hard-limit phase: 2 + (c - 45)/2 seconds from 45 calls,
1 + (c - 40)/10 seconds from the threshold 40, 0.5 seconds from 30 calls,
otherwise no delay. -/
def soft_delay (c : ℕ) : ℚ :=
  if 45 ≤ c then 2 + ((c : ℚ) - 45) * (1/2)
  else if rate_limit_threshold ≤ c then 1 + ((c : ℚ) - (rate_limit_threshold : ℚ)) * (1/10)
  else if 30 ≤ c then 1/2
  else 0

/-- The hard-ceiling phase of _smart_rate_limit: when the pruned count has
reached the hard ceiling, wait until one second after the oldest timestamp
leaves the 60-second window, then re-prune at the new time. -/
def hard_limit_wait (now : ℚ) (ts1 : List ℚ) : ℚ × List ℚ :=
  if hard_limit ≤ ts1.length then
    match ts1.min? with
    | some oldest =>
      let wait := 61 - (now - oldest)
      if 0 < wait then (now + wait, prune_times (now + wait) ts1)
      else (now, ts1)
    | none => (now, ts1)
  else (now, ts1)

/-- services/api_list_recent_bookings.py _smart_rate_limit, with sleeps
modelled as exact time advances. The call list is pruned at the current time;
the hard-ceiling wait runs; then the graduated soft delay elapses; finally
the new timestamp (the time after all delays) is appended. -/
def smart_rate_limit (s : RLState) : RLState :=
  let ah := hard_limit_wait s.now (prune_times s.now s.times)
  let now3 := ah.1 + soft_delay ah.2.length
  ⟨now3, ah.2 ++ [now3]⟩

/-- One outer step: the wall clock advances by the gap delta between
consecutive calls (zero for back-to-back calls), then the guard runs. -/
def rl_step (s : RLState) (delta : ℚ) : RLState :=
  smart_rate_limit ⟨s.now + delta, s.times⟩

/-- A run of the guard from a fresh process state (empty timestamp list) at
start time t0, with the given inter-call gaps. -/
def rl_run (t0 : ℚ) (gaps : List ℚ) : RLState :=
  gaps.foldl rl_step ⟨t0, []⟩

/-- The state invariant of the rate limiter: at most hard_limit recorded
timestamps, all of them in the past. -/
def rl_inv (s : RLState) : Prop :=
  s.times.length ≤ hard_limit ∧ ∀ t ∈ s.times, t ≤ s.now

/- ### Concrete inputs used by counterexamples and witnesses -/

/-- A line item with every optional field absent. -/
def base_item : RawItem :=
  { priceSell := none, priceRetail := none, checkIn := DateField.empty
    checkOut := DateField.empty, startDate := DateField.empty
    endDate := DateField.empty, numberGuests := 0 }

/-- A raw booking with every field empty or default. -/
def base_booking : RawBooking :=
  { bookingId := "", eId := "", bookingType := "", customId := ""
    bookingSource := "", active := none, createdDate := TimeField.empty
    items := [], invoicePayments := [] }

/-- A reservation whose single item has no priceSell but a nonzero
priceRetail of 100. -/
def c1ex_booking : RawBooking :=
  { base_booking with
    bookingId := "1001", eId := "E1", bookingType := "ACCOMMODATION"
    items := [{ base_item with priceRetail := some 100 }] }

/-- A SERVICE reservation whose single item ends one day before it starts. -/
def c3ex_booking : RawBooking :=
  { base_booking with
    bookingId := "1002"
    eId := "E2"
    bookingType := "SERVICE"
    items := [{ base_item with
                startDate := DateField.valid 100
                endDate := DateField.valid 99 }] }

/-- A SERVICE reservation whose single item starts and ends on day 100. -/
def c3w_booking : RawBooking :=
  { base_booking with
    bookingId := "1003"
    eId := "E3"
    bookingType := "SERVICE"
    items := [{ base_item with
                startDate := DateField.valid 100
                endDate := DateField.valid 100 }] }

/-- First malformed booking: external id and booking id both empty. -/
def c2_raw1 : RawBooking :=
  { base_booking with
    createdDate := TimeField.valid 0
    items := [{ base_item with priceSell := some 10 }] }

/-- Second malformed booking: same entirely empty key, different price. -/
def c2_raw2 : RawBooking :=
  { base_booking with
    createdDate := TimeField.valid 0
    items := [{ base_item with priceSell := some 20 }] }

/-- Builder for concrete summaries used in witnesses. -/
def mk_summary (eid bid ck : String) (sp : ℤ) (created : TimeField) : BookingSummary :=
  { booking_id := bid, e_id := eid, composite_key := ck, nights := 0
    guests := 0, sell_price_raw := sp, amount_invoiced_raw := 0
    amount_received_raw := 0, is_active := true, status := "Active"
    booking_type := "ACCOMMODATION", booking_source := "Book & Pay"
    raw_created := created }

/-
  ## Theorems
-/

/- ### Attribution helper lemmas -/

lemma ota_fixup_of_mem (p : String × String)
    (h : (ota_fixup p).2 ∈ (["Airbnb", "Booking.com", "Expedia", "Jalan"] : List String)) :
    (ota_fixup p).1 = "OTA" := by
  by_cases hc : (p.2 == "Airbnb" || p.2 == "Booking.com" ||
      p.2 == "Expedia" || p.2 == "Jalan") = true
  · simp [ota_fixup, hc]
  · exfalso
    simp only [ota_fixup, hc, if_false, Bool.if_false_right] at h
    rw [if_neg (by simp [hc])] at h
    simp only [Bool.or_eq_true, beq_iff_eq] at hc
    simp only [List.mem_cons, List.not_mem_nil, or_false] at h
    tauto

lemma beq_empty_false_of_ne {s : String} (h : s ≠ "") : (s == "") = false := by
  simpa using h

/-- C7: for every custom id and channel string, whenever the secondary
channel returned by attribute_booking is one of Airbnb, Booking.com, Expedia
or Jalan, the primary channel is OTA. -/
theorem claim_c7_ota_primary (cid src : String)
    (h : (attribute_booking cid src).2 ∈
      (["Airbnb", "Booking.com", "Expedia", "Jalan"] : List String)) :
    (attribute_booking cid src).1 = "OTA" := by
  unfold attribute_booking at h ⊢
  exact ota_fixup_of_mem _ h

theorem claim_c7_ota_primary_witness :
    (attribute_booking "0123456789" "web").2 ∈
      (["Airbnb", "Booking.com", "Expedia", "Jalan"] : List String) ∧
    (attribute_booking "0123456789" "web").1 = "OTA" :=
  ⟨by decide, claim_c7_ota_primary "0123456789" "web" (by decide)⟩

/-- C8: attribute_booking with an empty custom id returns
(Book & Pay, Book & Pay) for every channel string; it is a total function of
its two string inputs (it is defined without any failure path), and when the
custom id is nonempty and no rule of the chain matches it degrades to
(Unknown, Unknown). -/
theorem claim_c8_empty_and_default :
    (∀ src, attribute_booking "" src = ("Book & Pay", "Book & Pay")) ∧
    (∀ cid src, cid ≠ "" →
      attr_airbnb_rule cid src = false → bcom_rule cid = false →
      expedia_rule cid = false → jalan_rule cid = false → staff_rule cid = false →
      attribute_booking cid src = ("Unknown", "Unknown")) := by
  constructor
  · intro src
    simp [attribute_booking, attr_pre, ota_fixup]
  · intro cid src hne h1 h2 h3 h4 h5
    have hcid : (cid == "") = false := beq_empty_false_of_ne hne
    simp [attribute_booking, attr_pre, ota_fixup, hcid, h1, h2, h3, h4, h5]

theorem claim_c8_empty_and_default_witness :
    attribute_booking "" "RoomBoss Channel Manager - Airbnb" = ("Book & Pay", "Book & Pay") ∧
    (("zz" : String) ≠ "" ∧ attribute_booking "zz" "" = ("Unknown", "Unknown")) :=
  ⟨claim_c8_empty_and_default.1 _,
   by decide,
   claim_c8_empty_and_default.2 "zz" "" (by decide) (by decide) (by decide)
     (by decide) (by decide) (by decide)⟩

/-- C10: the recent-bookings attribution variant never returns Unknown: its
result is Book & Pay, one of the four OTA names, or a staff label of the form
Staff (code); and every nonempty custom id matching none of the rules is
classified Book & Pay. -/
theorem claim_c10_no_unknown (cid src : String) :
    determine_booking_source cid src ≠ "Unknown" ∧
    (determine_booking_source cid src = "Book & Pay" ∨
     determine_booking_source cid src = "Airbnb" ∨
     determine_booking_source cid src = "Booking.com" ∨
     determine_booking_source cid src = "Expedia" ∨
     determine_booking_source cid src = "Jalan" ∨
     ∃ code, determine_booking_source cid src = "Staff (" ++ code ++ ")") ∧
    (cid ≠ "" → rb_airbnb_rule cid src = false → rb_bcom_rule cid src = false →
      expedia_rule cid = false → jalan_rule cid = false → staff_rule cid = false →
      determine_booking_source cid src = "Book & Pay") := by
  refine ⟨?_, ?_, ?_⟩
  · unfold determine_booking_source
    split_ifs <;> try decide
    intro hEq
    have hlen := congrArg String.length hEq
    rw [String.length_append, String.length_append] at hlen
    have e1 : ("Staff (" : String).length = 7 := rfl
    have e2 : (")" : String).length = 1 := rfl
    have e3 : ("Unknown" : String).length = 7 := rfl
    rw [e1, e2, e3] at hlen
    omega
  · unfold determine_booking_source
    split_ifs
    · exact Or.inl rfl
    · exact Or.inr (Or.inl rfl)
    · exact Or.inr (Or.inr (Or.inl rfl))
    · exact Or.inr (Or.inr (Or.inr (Or.inl rfl)))
    · exact Or.inr (Or.inr (Or.inr (Or.inr (Or.inl rfl))))
    · exact Or.inr (Or.inr (Or.inr (Or.inr (Or.inr ⟨cid, rfl⟩))))
    · exact Or.inl rfl
  · intro hne h1 h2 h3 h4 h5
    have hcid : (cid == "") = false := beq_empty_false_of_ne hne
    simp [determine_booking_source, hcid, h1, h2, h3, h4, h5]

theorem claim_c10_no_unknown_witness :
    (("zz" : String) ≠ "" ∧ determine_booking_source "zz" "" = "Book & Pay") ∧
    determine_booking_source "zz" "" ≠ "Unknown" :=
  ⟨⟨by decide,
    (claim_c10_no_unknown "zz" "").2.2 (by decide) (by decide) (by decide)
      (by decide) (by decide) (by decide)⟩,
   (claim_c10_no_unknown "zz" "").1⟩

/- ### Summarizer lemmas -/

lemma foldl_add_eq_sum_map {α : Type} (f : α → ℤ) :
    ∀ (l : List α) (a : ℤ), l.foldl (fun acc x => acc + f x) a = a + (l.map f).sum
  | [], a => by simp
  | x :: xs, a => by
    simp only [List.foldl_cons, List.map_cons, List.sum_cons]
    rw [foldl_add_eq_sum_map f xs (a + f x)]
    ring

/-- C1 counterexample: for the reservation whose single item has no priceSell
and priceRetail 100, the summarizer total is 0, not the priceRetail fallback
total of 100 demanded by the claim. -/
theorem claim_c1_counterexample :
    (parse_booking_summary c1ex_booking).sell_price_raw ≠ spec_sell_total c1ex_booking := by
  decide

/-- C1 amended: the total sell price of the summarizer is the sum over all
line items of priceSell with 0 substituted when priceSell is absent;
priceRetail is never consulted. -/
theorem claim_c1_sell_total (b : RawBooking) :
    (parse_booking_summary b).sell_price_raw =
      (b.items.map (fun it => it.priceSell.getD 0)).sum := by
  unfold parse_booking_summary
  simpa using foldl_add_eq_sum_map (fun it : RawItem => it.priceSell.getD 0) b.items 0

/-- C3 counterexample: for the SERVICE reservation whose item ends one day
before it starts, the summarizer reports -1 nights, not the clamped 0 the
claim demands. -/
theorem claim_c3_counterexample :
    (parse_booking_summary c3ex_booking).nights = -1 ∧
    ¬ (0 : ℤ) ≤ (parse_booking_summary c3ex_booking).nights := by
  decide

/-- C3 amended: for every SERVICE reservation whose first item carries parsed
start and end dates, nights is the whole-day difference end minus start with a
zero difference forced to 1; a negative difference is surfaced as-is, not
clamped to 0. -/
theorem claim_c3_service_nights (b : RawBooking) (first : RawItem)
    (rest : List RawItem) (s e : ℤ)
    (hty : b.bookingType = "SERVICE") (hitems : b.items = first :: rest)
    (hs : first.startDate = DateField.valid s) (he : first.endDate = DateField.valid e) :
    (parse_booking_summary b).nights = if e - s = 0 then 1 else e - s := by
  unfold parse_booking_summary nights_of
  simp [hitems, hty, hs, he]

theorem claim_c3_service_nights_witness :
    (c3w_booking.bookingType = "SERVICE" ∧
     c3w_booking.items = [{ base_item with
        startDate := DateField.valid 100, endDate := DateField.valid 100 }] ∧
     (parse_booking_summary c3w_booking).nights = 1) :=
  ⟨rfl, rfl, by
    rw [claim_c3_service_nights c3w_booking
      { base_item with startDate := DateField.valid 100, endDate := DateField.valid 100 }
      [] 100 100 rfl rfl rfl rfl]
    decide⟩

/- ### Deduplication lemmas -/

lemma append_underscore_ne_empty (a b : String) : a ++ "_" ++ b ≠ "" := by
  intro h
  have hlen := congrArg String.length h
  rw [String.length_append, String.length_append] at hlen
  have e1 : ("_" : String).length = 1 := rfl
  have e2 : ("" : String).length = 0 := rfl
  rw [e1, e2] at hlen
  omega

lemma eff_key_ne_empty (b : BookingSummary) : eff_key b ≠ "" := by
  unfold eff_key
  by_cases h : (b.composite_key == "") = true
  · rw [if_pos h]
    exact append_underscore_ne_empty _ _
  · rw [if_neg h]
    simpa using h

lemma dedupe_go_cons (seen : List String) (b : BookingSummary) (bs : List BookingSummary) :
    dedupe_go seen (b :: bs) =
      if eff_key b ∈ seen then dedupe_go seen bs
      else b :: dedupe_go (eff_key b :: seen) bs := by
  have hk := eff_key_ne_empty b
  by_cases hm : eff_key b ∈ seen
  · rw [if_pos hm]
    simp only [dedupe_go]
    rw [if_neg (by simp [hm]), if_neg hk]
  · rw [if_neg hm]
    simp only [dedupe_go]
    rw [if_pos ⟨hk, hm⟩]

lemma dedupe_go_sublist : ∀ (bs : List BookingSummary) (seen : List String),
    (dedupe_go seen bs).Sublist bs
  | [], _ => List.Sublist.refl _
  | b :: bs, seen => by
    rw [dedupe_go_cons]
    by_cases hm : eff_key b ∈ seen
    · rw [if_pos hm]
      exact (dedupe_go_sublist bs seen).cons b
    · rw [if_neg hm]
      exact (dedupe_go_sublist bs (eff_key b :: seen)).cons₂ b

lemma dedupe_go_filter_key (k : String) :
    ∀ (bs : List BookingSummary) (seen : List String),
      (dedupe_go seen bs).filter (fun b => eff_key b == k) =
        if k ∈ seen then []
        else ((bs.filter (fun b => eff_key b == k)).take 1)
  | [], seen => by simp [dedupe_go]
  | b :: bs, seen => by
    rw [dedupe_go_cons]
    by_cases hm : eff_key b ∈ seen
    · rw [if_pos hm, dedupe_go_filter_key k bs seen]
      by_cases hks : k ∈ seen
      · rw [if_pos hks, if_pos hks]
      · rw [if_neg hks, if_neg hks]
        have hbk : (eff_key b == k) = false := by
          simp only [beq_eq_false_iff_ne]
          intro h
          exact hks (h ▸ hm)
        rw [List.filter_cons_of_neg (by simp [hbk])]
    · rw [if_neg hm]
      by_cases hbk : eff_key b = k
      · have hseen : k ∉ seen := hbk ▸ hm
        rw [if_neg hseen, List.filter_cons_of_pos (by simp [hbk]),
          List.filter_cons_of_pos (by simp [hbk])]
        rw [dedupe_go_filter_key k bs (eff_key b :: seen)]
        rw [if_pos (by rw [hbk]; exact List.mem_cons_self _ _)]
        simp
      · rw [List.filter_cons_of_neg (by simp [hbk]),
          List.filter_cons_of_neg (by simp [hbk])]
        rw [dedupe_go_filter_key k bs (eff_key b :: seen)]
        by_cases hks : k ∈ seen
        · rw [if_pos hks, if_pos (List.mem_cons_of_mem _ hks)]
        · rw [if_neg hks, if_neg (by
            intro h
            rcases List.mem_cons.mp h with h1 | h2
            · exact hbk h1.symm
            · exact hks h2)]

lemma dedupe_go_idem : ∀ (bs : List BookingSummary) (seen : List String),
    dedupe_go seen (dedupe_go seen bs) = dedupe_go seen bs
  | [], _ => rfl
  | b :: bs, seen => by
    rw [dedupe_go_cons]
    by_cases hm : eff_key b ∈ seen
    · rw [if_pos hm, dedupe_go_idem bs seen]
    · rw [if_neg hm, dedupe_go_cons, if_neg hm, dedupe_go_idem bs (eff_key b :: seen)]

/-- C2 code bug: two summaries with entirely empty external id and booking id
both carry the composite key consisting of the bare underscore, so the second
one is dropped by deduplication instead of being retained unconditionally
(both records pass the window filter here). -/
theorem claim_c2_empty_key_dropped :
    (parse_booking_summary c2_raw1).e_id = "" ∧
    (parse_booking_summary c2_raw1).booking_id = "" ∧
    (parse_booking_summary c2_raw2).e_id = "" ∧
    (parse_booking_summary c2_raw2).booking_id = "" ∧
    filter_and_dedupe 0 7 [parse_booking_summary c2_raw1, parse_booking_summary c2_raw2] =
      [parse_booking_summary c2_raw1] := by
  decide

/-- C6: when an input list contains two or more records with the same
composite key, the deduplicated output keeps exactly the first of them in
input order, and the output is a sublist of the input, so the relative order
of first occurrences is preserved. -/
theorem claim_c6_first_occurrence_wins (bs : List BookingSummary) (k : String)
    (h2 : 2 ≤ (bs.filter (fun b => eff_key b == k)).length) :
    (dedupe_bookings bs).filter (fun b => eff_key b == k) =
      (bs.filter (fun b => eff_key b == k)).take 1 ∧
    (dedupe_bookings bs).Sublist bs := by
  constructor
  · unfold dedupe_bookings
    rw [dedupe_go_filter_key k bs []]
    rw [if_neg (List.not_mem_nil k)]
  · exact dedupe_go_sublist bs []

theorem claim_c6_first_occurrence_wins_witness :
    2 ≤ (([mk_summary "A" "1" "A_1" 10 TimeField.empty,
           mk_summary "A" "1" "A_1" 20 TimeField.empty,
           mk_summary "B" "2" "B_2" 30 TimeField.empty].filter
            (fun b => eff_key b == "A_1")).length) ∧
    ((dedupe_bookings [mk_summary "A" "1" "A_1" 10 TimeField.empty,
           mk_summary "A" "1" "A_1" 20 TimeField.empty,
           mk_summary "B" "2" "B_2" 30 TimeField.empty]).filter
            (fun b => eff_key b == "A_1") =
      ([mk_summary "A" "1" "A_1" 10 TimeField.empty,
           mk_summary "A" "1" "A_1" 20 TimeField.empty,
           mk_summary "B" "2" "B_2" 30 TimeField.empty].filter
            (fun b => eff_key b == "A_1")).take 1 ∧
     (dedupe_bookings [mk_summary "A" "1" "A_1" 10 TimeField.empty,
           mk_summary "A" "1" "A_1" 20 TimeField.empty,
           mk_summary "B" "2" "B_2" 30 TimeField.empty]).Sublist
       [mk_summary "A" "1" "A_1" 10 TimeField.empty,
           mk_summary "A" "1" "A_1" 20 TimeField.empty,
           mk_summary "B" "2" "B_2" 30 TimeField.empty]) :=
  ⟨by decide,
   claim_c6_first_occurrence_wins _ "A_1" (by decide)⟩

/-- C9: filterAndDedupe is idempotent: applying the window filter followed by
deduplication a second time, with the same window and reference time, returns
its own output unchanged. -/
theorem claim_c9_idempotent (now_utc_min days : ℤ) (bs : List BookingSummary) :
    filter_and_dedupe now_utc_min days (filter_and_dedupe now_utc_min days bs) =
      filter_and_dedupe now_utc_min days bs := by
  unfold filter_and_dedupe filter_created_last_n_days dedupe_bookings
  have h1 : (dedupe_go [] (bs.filter (created_in_window now_utc_min days))).filter
      (created_in_window now_utc_min days) =
      dedupe_go [] (bs.filter (created_in_window now_utc_min days)) := by
    apply List.filter_eq_self.mpr
    intro a ha
    exact List.of_mem_filter ((dedupe_go_sublist _ _).subset ha)
  rw [h1, dedupe_go_idem]

/- ### Window filter lemmas -/

lemma date_of_minutes_eq_ediv (m : ℤ) : date_of_minutes m = m / 1440 :=
  Int.fdiv_eq_ediv m (by norm_num)

/-- C5: with windowDays = 1 the cutoff is the JST calendar date of the
reference time: a summary created at 23:59 JST on the reference day and one
created at 00:01 JST on the reference day are both kept, while one created at
23:59 JST on the previous day is excluded. D is the JST day number of the
reference time, whose clock time here is 10:00 JST. -/
theorem claim_c5_one_day_window (D : ℤ) (b1 b2 b3 : BookingSummary)
    (h1 : b1.raw_created = TimeField.valid (1440 * D + 1439 - jst_offset_min))
    (h2 : b2.raw_created = TimeField.valid (1440 * D + 1 - jst_offset_min))
    (h3 : b3.raw_created = TimeField.valid (1440 * D - 1 - jst_offset_min)) :
    filter_created_last_n_days (1440 * D + 600 - jst_offset_min) 1 [b1, b2, b3] =
      [b1, b2] := by
  have k1 : created_in_window (1440 * D + 600 - jst_offset_min) 1 b1 = true := by
    rw [created_in_window, h1]
    simp only [jst_offset_min, date_of_minutes_eq_ediv, decide_eq_true_eq]
    omega
  have k2 : created_in_window (1440 * D + 600 - jst_offset_min) 1 b2 = true := by
    rw [created_in_window, h2]
    simp only [jst_offset_min, date_of_minutes_eq_ediv, decide_eq_true_eq]
    omega
  have k3 : created_in_window (1440 * D + 600 - jst_offset_min) 1 b3 = false := by
    rw [created_in_window, h3]
    simp only [jst_offset_min, date_of_minutes_eq_ediv, decide_eq_false_iff_not]
    omega
  rw [filter_created_last_n_days, List.filter_cons_of_pos k1,
    List.filter_cons_of_pos k2, List.filter_cons_of_neg (by simp [k3]), List.filter_nil]

theorem claim_c5_one_day_window_witness :
    ((mk_summary "A" "1" "A_1" 0 (TimeField.valid (1440 * 100 + 1439 - jst_offset_min))).raw_created
        = TimeField.valid (1440 * 100 + 1439 - jst_offset_min)) ∧
    filter_created_last_n_days (1440 * 100 + 600 - jst_offset_min) 1
      [mk_summary "A" "1" "A_1" 0 (TimeField.valid (1440 * 100 + 1439 - jst_offset_min)),
       mk_summary "B" "2" "B_2" 0 (TimeField.valid (1440 * 100 + 1 - jst_offset_min)),
       mk_summary "C" "3" "C_3" 0 (TimeField.valid (1440 * 100 - 1 - jst_offset_min))] =
      [mk_summary "A" "1" "A_1" 0 (TimeField.valid (1440 * 100 + 1439 - jst_offset_min)),
       mk_summary "B" "2" "B_2" 0 (TimeField.valid (1440 * 100 + 1 - jst_offset_min))] :=
  ⟨rfl, claim_c5_one_day_window 100 _ _ _ rfl rfl rfl⟩

/- ### Rate limiter lemmas -/

lemma length_filter_lt_of {α : Type} (p : α → Bool) :
    ∀ (l : List α) (a : α), a ∈ l → p a = false → (l.filter p).length < l.length
  | x :: xs, a, ha, hpa => by
    rcases List.mem_cons.mp ha with h | h
    · subst h
      rw [List.filter_cons_of_neg (by simp [hpa])]
      exact Nat.lt_succ_of_le (List.length_filter_le _ _)
    · by_cases hx : p x = true
      · rw [List.filter_cons_of_pos hx]
        simpa using Nat.succ_lt_succ (length_filter_lt_of p xs a h hpa)
      · rw [List.filter_cons_of_neg (by simpa using hx)]
        exact Nat.lt_succ_of_lt (length_filter_lt_of p xs a h hpa)

lemma soft_delay_nonneg (c : ℕ) : 0 ≤ soft_delay c := by
  unfold soft_delay rate_limit_threshold
  split_ifs with h1 h2 h3
  · have hc : (45 : ℚ) ≤ (c : ℚ) := by exact_mod_cast h1
    linarith
  · have hc : (40 : ℚ) ≤ (c : ℚ) := by exact_mod_cast h2
    linarith
  · norm_num
  · exact le_refl 0

lemma hard_limit_wait_spec (now : ℚ) (ts1 : List ℚ)
    (hlen : ts1.length ≤ hard_limit)
    (hwin : ∀ t ∈ ts1, now - t < 60) (hpast : ∀ t ∈ ts1, t ≤ now) :
    (hard_limit_wait now ts1).2.length < hard_limit ∧
    now ≤ (hard_limit_wait now ts1).1 ∧
    ∀ t ∈ (hard_limit_wait now ts1).2, t ≤ (hard_limit_wait now ts1).1 := by
  unfold hard_limit_wait
  by_cases hc : hard_limit ≤ ts1.length
  · rw [if_pos hc]
    have hne : ts1 ≠ [] := by
      intro h
      subst h
      simp [hard_limit, max_calls_per_minute, safety_buffer] at hc
    obtain ⟨m, hm⟩ : ∃ m, ts1.min? = some m := by
      cases h : ts1.min? with
      | none => exact absurd (List.min?_eq_none_iff.mp h) hne
      | some m => exact ⟨m, rfl⟩
    rw [hm]
    have hmmem : m ∈ ts1 := List.min?_mem (fun a b => min_choice a b) hm
    have hmw : now - m < 60 := hwin m hmmem
    have hwait : (0 : ℚ) < 61 - (now - m) := by linarith
    dsimp only
    rw [if_pos hwait]
    refine ⟨?_, by simp only; linarith, ?_⟩
    · have hfail : (decide ((now + (61 - (now - m))) - m < 60)) = false := by
        simp only [decide_eq_false_iff_not, not_lt]
        linarith
      exact lt_of_lt_of_le (length_filter_lt_of _ ts1 m hmmem hfail) hlen
    · intro t ht
      have h1 : t ∈ ts1 := List.mem_of_mem_filter ht
      have h2 := hpast t h1
      simp only at h2 ⊢
      linarith
  · rw [if_neg hc]
    push_neg at hc
    exact ⟨hc, le_refl _, hpast⟩

lemma smart_rate_limit_inv {s : RLState} (h : rl_inv s) : rl_inv (smart_rate_limit s) := by
  obtain ⟨hlen, hpast⟩ := h
  have hw : ∀ t ∈ prune_times s.now s.times, s.now - t < 60 := by
    intro t ht
    have h2 := List.mem_filter.mp ht
    simpa using h2.2
  have hp : ∀ t ∈ prune_times s.now s.times, t ≤ s.now :=
    fun t ht => hpast t (List.mem_of_mem_filter ht)
  have hl : (prune_times s.now s.times).length ≤ hard_limit :=
    le_trans (List.length_filter_le _ _) hlen
  obtain ⟨h1, h2, h3⟩ := hard_limit_wait_spec s.now (prune_times s.now s.times) hl hw hp
  have hs := soft_delay_nonneg (hard_limit_wait s.now (prune_times s.now s.times)).2.length
  constructor
  · show ((hard_limit_wait s.now (prune_times s.now s.times)).2 ++ [_]).length ≤ hard_limit
    rw [List.length_append]
    simp only [List.length_singleton]
    omega
  · intro t ht
    rcases List.mem_append.mp ht with h4 | h4
    · have h5 := h3 t h4
      show t ≤ (hard_limit_wait s.now (prune_times s.now s.times)).1 +
        soft_delay (hard_limit_wait s.now (prune_times s.now s.times)).2.length
      linarith
    · rw [List.mem_singleton] at h4
      subst h4
      exact le_refl _

lemma foldl_rl_step_inv :
    ∀ (gaps : List ℚ) (s : RLState), (∀ d ∈ gaps, 0 ≤ d) → rl_inv s →
      rl_inv (gaps.foldl rl_step s)
  | [], _, _, hs => hs
  | d :: gaps, s, hg, hs => by
    rw [List.foldl_cons]
    apply foldl_rl_step_inv gaps _ (fun x hx => hg x (List.mem_cons_of_mem _ hx))
    unfold rl_step
    apply smart_rate_limit_inv
    refine ⟨hs.1, ?_⟩
    intro t ht
    have h1 := hs.2 t ht
    have hd : 0 ≤ d := hg d (List.mem_cons_self _ _)
    show t ≤ s.now + d
    linarith

/-- C4: starting from a fresh process, for every sequence of nonnegative
inter-call gaps (in particular all-zero gaps, that is back-to-back calls) and
at every step count k, after k invocations of the guard the number of
recorded timestamps never exceeds the hard ceiling 50 = 60 - 10, and in
particular neither does the number of recorded timestamps inside the trailing
60-second window. Pruning before the decision and recording after the delays
are built into smart_rate_limit. -/
theorem claim_c4_hard_ceiling (t0 : ℚ) (gaps : List ℚ)
    (hg : ∀ d ∈ gaps, 0 ≤ d) (k : ℕ) :
    (rl_run t0 (gaps.take k)).times.length ≤ hard_limit ∧
    (prune_times (rl_run t0 (gaps.take k)).now
      (rl_run t0 (gaps.take k)).times).length ≤ hard_limit := by
  have hinv : rl_inv (rl_run t0 (gaps.take k)) := by
    apply foldl_rl_step_inv
    · intro d hd
      exact hg d (List.take_subset k gaps hd)
    · exact ⟨Nat.zero_le _, by simp⟩
  exact ⟨hinv.1, le_trans (List.length_filter_le _ _) hinv.1⟩

theorem claim_c4_hard_ceiling_witness :
    (∀ d ∈ ([0, 0, 0] : List ℚ), 0 ≤ d) ∧
    ((rl_run 0 (([0, 0, 0] : List ℚ).take 3)).times.length ≤ hard_limit ∧
     (prune_times (rl_run 0 (([0, 0, 0] : List ℚ).take 3)).now
       (rl_run 0 (([0, 0, 0] : List ℚ).take 3)).times).length ≤ hard_limit) :=
  ⟨by decide, claim_c4_hard_ceiling 0 [0, 0, 0] (by decide) 3⟩

end HnStaff
